import Mathlib

/-!
Shallow embedding of the alert policy engine and webhook dispatcher of the
aws-security-audit-dashboard repository, together with theorems checking the
natural-language specification against it.

The embedded code comes from two library files (the Spike.sh integration
library and the settings API route) and the single-alert API route.  Effects
are made explicit: the settings lookup becomes a function from user ids to an
optional settings record, and the HTTP `fetch` call becomes a function from
the target URL and the serialized payload to a `FetchResult`; every payload
handed to `fetch` is also recorded in a dispatch log so that dispatch
behaviour can be stated as a theorem.  JavaScript truthiness on nullable
strings (null and the empty string are both falsy) is modelled explicitly.
-/

namespace CloudGuard

/-- The per-user settings record persisted by the ORM (`userSettings` table).
Nullable string columns are `Option String`; the persistence key (`userId`)
lives outside the record in our model. -/
structure UserSettings where
  spikeWebhookUrl : Option String
  spikeEnabled : Bool
  spikeAlertOnCritical : Bool
  spikeAlertOnHigh : Bool
  slackWebhookUrl : Option String
  slackEnabled : Bool
  emailAlerts : Bool
  alertThreshold : String
  deriving Repr, DecidableEq

/-- A security finding, as consumed by the integration library. -/
structure Finding where
  severity : String
  title : String
  description : Option String
  resource : String
  resourceType : Option String
  region : Option String
  recommendation : Option String
  deriving Repr, DecidableEq

/-- The options record taken by `sendSpikeAlert`. -/
structure AlertOptions where
  userId : String
  cloudProvider : String
  accountName : String
  finding : Finding
  deriving Repr, DecidableEq

/-- JavaScript truthiness of a nullable string: `null` and `""` are falsy. -/
def truthyStr : Option String → Bool
  | none => false
  | some s => !(s == "")

/-- JavaScript `a || b` where `a` is a nullable string and the result is used
as a string: falls back to `b` when `a` is null or empty. -/
def jsOrStr (a : Option String) (b : String) : String :=
  match a with
  | some s => if s == "" then b else s
  | none => b

/-- JavaScript `toUpperCase` on ASCII severity labels: uppercase every
character (structural, so that concrete runs evaluate). -/
def toUpperCase (s : String) : String :=
  ⟨s.data.map Char.toUpper⟩

/-- `mapSeverityToPriority` from the integration library: map severity to
Spike.sh priority levels. -/
def mapSeverityToPriority (severity : String) : String :=
  let s := toUpperCase severity
  if s == "CRITICAL" then "P1"
  else if s == "HIGH" then "P2"
  else if s == "MEDIUM" then "P3"
  else if s == "LOW" then "P4"
  else "P3"

/-- Metadata block of a per-finding Spike.sh alert payload. -/
structure SpikeMetadata where
  severity : String
  cloudProvider : String
  resource : String
  resourceType : Option String
  region : Option String
  accountName : Option String
  recommendation : Option String
  deriving Repr, DecidableEq

/-- The normalized per-finding alert payload POSTed to the webhook. -/
structure SpikePayload where
  title : String
  message : String
  status : String
  priority : String
  source : String
  timestamp : String
  metadata : SpikeMetadata
  deriving Repr, DecidableEq

/-- Result of one HTTP `fetch`: either a response with a status code and a
body, or a transport-level failure (DNS, timeout, reset) that `fetch` throws. -/
inductive FetchResult where
  | response (status : Nat) (body : String)
  | transportError (message : String)
  deriving Repr, DecidableEq

/-- `Response.ok` of the fetch API: status in the 2xx range. -/
def responseOk (status : Nat) : Bool :=
  200 ≤ status && status < 300

/-- Outcome of one call to `sendSpikeAlert`: its boolean return value, the
list of (url, payload) pairs handed to `fetch`, and the console log lines. -/
structure SendOutcome where
  result : Bool
  dispatched : List (String × SpikePayload)
  logs : List String
  deriving Repr, DecidableEq

/-- `sendSpikeAlert` from the integration library: send a finding alert to
Spike.sh if enabled.  `db` models the `userSettings` lookup keyed by user id,
`fetch` the HTTP client, `now` the ISO-8601 rendering of the current time. -/
def sendSpikeAlert (db : String → Option UserSettings)
    (fetch : String → SpikePayload → FetchResult)
    (options : AlertOptions) (now : String) : SendOutcome :=
  match db options.userId with
  | none => ⟨false, [], []⟩
  | some settings =>
    if !settings.spikeEnabled || !truthyStr settings.spikeWebhookUrl then
      ⟨false, [], []⟩
    else
      let severity := toUpperCase options.finding.severity
      if severity == "CRITICAL" && !settings.spikeAlertOnCritical then
        ⟨false, [], []⟩
      else if severity == "HIGH" && !settings.spikeAlertOnHigh then
        ⟨false, [], []⟩
      else if severity != "CRITICAL" && severity != "HIGH" then
        ⟨false, [], []⟩
      else
        let spikePayload : SpikePayload :=
          { title := "[" ++ options.cloudProvider ++ "] " ++ severity ++ ": "
              ++ options.finding.title
            message := jsOrStr options.finding.description options.finding.title
            status := if severity == "CRITICAL" then "CRITICAL" else "WARNING"
            priority := mapSeverityToPriority severity
            source := "CloudGuard Security Dashboard"
            timestamp := now
            metadata :=
              { severity := options.finding.severity
                cloudProvider := options.cloudProvider
                resource := options.finding.resource
                resourceType := options.finding.resourceType
                region := options.finding.region
                accountName := some options.accountName
                recommendation := options.finding.recommendation } }
        let url := settings.spikeWebhookUrl.getD ""
        match fetch url spikePayload with
        | FetchResult.response status body =>
          if !responseOk status then
            ⟨false, [(url, spikePayload)], ["Spike.sh alert failed:" ++ body]⟩
          else
            ⟨true, [(url, spikePayload)],
              ["Spike.sh alert sent for " ++ severity ++ " finding: "
                ++ options.finding.title]⟩
        | FetchResult.transportError msg =>
          ⟨false, [(url, spikePayload)], ["Error sending Spike.sh alert:" ++ msg]⟩

/-- The filter predicate of `sendBulkSpikeAlerts`: only critical and high
findings are alertable. -/
def isAlertable (f : Finding) : Bool :=
  toUpperCase f.severity == "CRITICAL" || toUpperCase f.severity == "HIGH"

/-- Outcome of `sendBulkSpikeAlerts`: the sent/skipped counters it returns
and the concatenated dispatch log of the individual sends. -/
structure BulkOutcome where
  sent : Nat
  skipped : Nat
  dispatched : List (String × SpikePayload)
  deriving Repr, DecidableEq

/-- `sendBulkSpikeAlerts` from the integration library: filter the findings
to critical/high, then invoke the single-alert path sequentially for each,
counting successes and failures.  The inter-call pacing delay has no
observable effect in this model and is omitted. -/
def sendBulkSpikeAlerts (db : String → Option UserSettings)
    (fetch : String → SpikePayload → FetchResult)
    (userId cloudProvider accountName : String)
    (findings : List Finding) (now : String) : BulkOutcome :=
  let alertableFindings := findings.filter isAlertable
  alertableFindings.foldl
    (fun acc finding =>
      let r := sendSpikeAlert db fetch ⟨userId, cloudProvider, accountName, finding⟩ now
      if r.result then
        ⟨acc.sent + 1, acc.skipped, acc.dispatched ++ r.dispatched⟩
      else
        ⟨acc.sent, acc.skipped + 1, acc.dispatched ++ r.dispatched⟩)
    ⟨0, 0, []⟩

/-- An audit summary: severity-bucketed finding counts of one audit run. -/
structure AuditSummary where
  critical : Nat
  high : Nat
  medium : Nat
  low : Nat
  total : Nat
  deriving Repr, DecidableEq

/-- Metadata block of an audit-summary alert payload; `type` is the
discriminator marking it as a summary-type alert. -/
structure SummaryMetadata where
  cloudProvider : String
  accountName : String
  critical : Nat
  high : Nat
  medium : Nat
  low : Nat
  total : Nat
  type : String
  deriving Repr, DecidableEq

/-- The audit-summary alert payload POSTed to the webhook. -/
structure SummaryPayload where
  title : String
  message : String
  status : String
  priority : String
  source : String
  timestamp : String
  metadata : SummaryMetadata
  deriving Repr, DecidableEq

/-- Outcome of one call to `sendAuditSummaryAlert`. -/
structure SummaryOutcome where
  result : Bool
  dispatched : List (String × SummaryPayload)
  logs : List String
  deriving Repr, DecidableEq

/-- `sendAuditSummaryAlert` from the integration library: send an audit
summary alert to Spike.sh when the run found critical or high findings. -/
def sendAuditSummaryAlert (db : String → Option UserSettings)
    (fetch : String → SummaryPayload → FetchResult)
    (userId cloudProvider accountName : String)
    (summary : AuditSummary) (now : String) : SummaryOutcome :=
  match db userId with
  | none => ⟨false, [], []⟩
  | some settings =>
    if !settings.spikeEnabled || !truthyStr settings.spikeWebhookUrl then
      ⟨false, [], []⟩
    else if summary.critical == 0 && summary.high == 0 then
      ⟨false, [], []⟩
    else
      let status := if summary.critical > 0 then "CRITICAL" else "WARNING"
      let priority := if summary.critical > 0 then "P1" else "P2"
      let spikePayload : SummaryPayload :=
        { title := "[" ++ cloudProvider ++ "] Audit Complete - "
            ++ toString summary.critical ++ " Critical, "
            ++ toString summary.high ++ " High findings"
          message := "Security audit completed for " ++ accountName ++ ". Found "
            ++ toString summary.total ++ " total findings: "
            ++ toString summary.critical ++ " Critical, "
            ++ toString summary.high ++ " High, "
            ++ toString summary.medium ++ " Medium, "
            ++ toString summary.low ++ " Low."
          status := status
          priority := priority
          source := "CloudGuard Security Dashboard"
          timestamp := now
          metadata :=
            { cloudProvider := cloudProvider
              accountName := accountName
              critical := summary.critical
              high := summary.high
              medium := summary.medium
              low := summary.low
              total := summary.total
              type := "audit_summary" } }
      let url := settings.spikeWebhookUrl.getD ""
      match fetch url spikePayload with
      | FetchResult.response status body =>
        if !responseOk status then
          ⟨false, [(url, spikePayload)], ["Spike.sh summary alert failed:" ++ body]⟩
        else
          ⟨true, [(url, spikePayload)],
            ["Spike.sh audit summary alert sent for " ++ accountName]⟩
      | FetchResult.transportError msg =>
        ⟨false, [(url, spikePayload)], ["Error sending Spike.sh summary alert:" ++ msg]⟩

/-- The JSON body accepted by the single-alert API route (`AlertPayload`
interface); the severity arrives as an arbitrary string at runtime since the
parsed JSON is not validated. -/
structure AlertRequest where
  severity : String
  title : String
  description : Option String
  resource : String
  resourceType : Option String
  region : Option String
  recommendation : Option String
  cloudProvider : String
  accountName : Option String
  deriving Repr, DecidableEq

/-- `mapSeverityToPriority` as duplicated in the single-alert API route. -/
def routeMapSeverityToPriority (severity : String) : String :=
  let s := toUpperCase severity
  if s == "CRITICAL" then "P1"
  else if s == "HIGH" then "P2"
  else if s == "MEDIUM" then "P3"
  else if s == "LOW" then "P4"
  else "P3"

/-- The HTTP response the single-alert route hands back (after the auth and
user-lookup steps, which precede the embedded fragment). -/
inductive RouteResult where
  /-- 400: Spike.sh integration is not enabled. -/
  | notEnabled
  /-- 200 with a skip message: severity gate declined to send. -/
  | skipped (message : String)
  /-- 500: the webhook answered non-2xx. -/
  | sendFailed
  /-- 200: alert sent to Spike.sh successfully. -/
  | sentOk
  /-- 500: internal server error (the surrounding catch). -/
  | internalError
  deriving Repr, DecidableEq

/-- Outcome of the single-alert route: its HTTP response and the dispatch log. -/
structure RouteOutcome where
  response : RouteResult
  dispatched : List (String × SpikePayload)
  deriving Repr, DecidableEq

/-- The single-alert API route (`POST /api/spike/alert`), from the settings
check onward: gate on settings and severity, build the payload, POST it. -/
def routeSpikeAlertPost (settings : Option UserSettings) (payload : AlertRequest)
    (fetch : String → SpikePayload → FetchResult) (now : String) : RouteOutcome :=
  match settings with
  | none => ⟨RouteResult.notEnabled, []⟩
  | some s =>
    if !s.spikeEnabled || !truthyStr s.spikeWebhookUrl then
      ⟨RouteResult.notEnabled, []⟩
    else
      let severity := toUpperCase payload.severity
      if severity == "CRITICAL" && !s.spikeAlertOnCritical then
        ⟨RouteResult.skipped "Alert skipped - Critical alerts are disabled", []⟩
      else if severity == "HIGH" && !s.spikeAlertOnHigh then
        ⟨RouteResult.skipped "Alert skipped - High alerts are disabled", []⟩
      else if severity == "MEDIUM" || severity == "LOW" then
        ⟨RouteResult.skipped ("Alert skipped - " ++ severity ++ " alerts are not enabled"), []⟩
      else
        let spikePayload : SpikePayload :=
          { title := "[" ++ payload.cloudProvider ++ "] " ++ payload.severity
              ++ ": " ++ payload.title
            message := jsOrStr payload.description payload.title
            status := if severity == "CRITICAL" then "CRITICAL" else "WARNING"
            priority := routeMapSeverityToPriority payload.severity
            source := "CloudGuard Security Dashboard"
            timestamp := now
            metadata :=
              { severity := payload.severity
                cloudProvider := payload.cloudProvider
                resource := payload.resource
                resourceType := payload.resourceType
                region := payload.region
                accountName := payload.accountName
                recommendation := payload.recommendation } }
        let url := s.spikeWebhookUrl.getD ""
        match fetch url spikePayload with
        | FetchResult.response status _ =>
          if !responseOk status then
            ⟨RouteResult.sendFailed, [(url, spikePayload)]⟩
          else
            ⟨RouteResult.sentOk, [(url, spikePayload)]⟩
        | FetchResult.transportError _ =>
          ⟨RouteResult.internalError, [(url, spikePayload)]⟩

/-- The request body of the settings upsert route; a field is `none` when it
is absent from (or null in) the JSON body. -/
structure SettingsBody where
  spikeWebhookUrl : Option String
  spikeEnabled : Option Bool
  spikeAlertOnCritical : Option Bool
  spikeAlertOnHigh : Option Bool
  slackWebhookUrl : Option String
  slackEnabled : Option Bool
  emailAlerts : Option Bool
  alertThreshold : Option String
  deriving Repr, DecidableEq

/-- JavaScript `s || null` on a nullable string: the empty string collapses
to null. -/
def jsOrNull (a : Option String) : Option String :=
  match a with
  | some s => if s == "" then none else some s
  | none => none

/-- The `prisma.userSettings.upsert` call of the settings route.  `existing`
is the record currently stored under the user's id (`none` selects the
create branch).  In the update branch `x ?? undefined` leaves a field
unchanged when the body omits it; the create branch fills defaults with
`|| null`, `|| false`, `?? true`, `|| "CRITICAL"` as in the source. -/
def upsertUserSettings (existing : Option UserSettings)
    (body : SettingsBody) : UserSettings :=
  match existing with
  | some s =>
    { spikeWebhookUrl :=
        match body.spikeWebhookUrl with
        | some v => some v
        | none => s.spikeWebhookUrl
      spikeEnabled := body.spikeEnabled.getD s.spikeEnabled
      spikeAlertOnCritical := body.spikeAlertOnCritical.getD s.spikeAlertOnCritical
      spikeAlertOnHigh := body.spikeAlertOnHigh.getD s.spikeAlertOnHigh
      slackWebhookUrl :=
        match body.slackWebhookUrl with
        | some v => some v
        | none => s.slackWebhookUrl
      slackEnabled := body.slackEnabled.getD s.slackEnabled
      emailAlerts := body.emailAlerts.getD s.emailAlerts
      alertThreshold := body.alertThreshold.getD s.alertThreshold }
  | none =>
    { spikeWebhookUrl := jsOrNull body.spikeWebhookUrl
      spikeEnabled := body.spikeEnabled.getD false
      spikeAlertOnCritical := body.spikeAlertOnCritical.getD true
      spikeAlertOnHigh := body.spikeAlertOnHigh.getD false
      slackWebhookUrl := jsOrNull body.slackWebhookUrl
      slackEnabled := body.slackEnabled.getD false
      emailAlerts := body.emailAlerts.getD true
      alertThreshold := jsOrStr body.alertThreshold "CRITICAL" }

/-- The fallback settings object returned by the settings GET route when the
user has no stored record. -/
def defaultSettingsFallback : UserSettings :=
  { spikeWebhookUrl := some ""
    spikeEnabled := false
    spikeAlertOnCritical := true
    spikeAlertOnHigh := false
    slackWebhookUrl := some ""
    slackEnabled := false
    emailAlerts := true
    alertThreshold := "CRITICAL" }

/-- The settings GET route, after auth and user lookup: `user.settings`
when stored, else the fallback defaults. -/
def getSettings (stored : Option UserSettings) : UserSettings :=
  stored.getD defaultSettingsFallback

/-- A settings-upsert request body with every field omitted. -/
def emptySettingsBody : SettingsBody :=
  ⟨none, none, none, none, none, none, none, none⟩

/-! ### Concrete fixtures used by witnesses and counterexamples -/

/-- A settings record with the Spike.sh integration fully enabled. -/
def enabledAll : UserSettings :=
  { spikeWebhookUrl := some "https://spike.example/hook"
    spikeEnabled := true
    spikeAlertOnCritical := true
    spikeAlertOnHigh := true
    slackWebhookUrl := none
    slackEnabled := false
    emailAlerts := true
    alertThreshold := "CRITICAL" }

/-- A webhook endpoint that always answers HTTP 200. -/
def okFetch : String → SpikePayload → FetchResult :=
  fun _ _ => FetchResult.response 200 "ok"

/-- A webhook endpoint that always answers HTTP 500. -/
def failFetch : String → SpikePayload → FetchResult :=
  fun _ _ => FetchResult.response 500 "boom"

/-- A summary-webhook endpoint that always answers HTTP 200. -/
def okSummaryFetch : String → SummaryPayload → FetchResult :=
  fun _ _ => FetchResult.response 200 "ok"

/-- A finding whose severity string is not one of the four recognized labels. -/
def unknownFinding : Finding :=
  ⟨"UNKNOWN", "T", none, "r", none, none, none⟩

/-- Alert options carrying `unknownFinding`. -/
def unknownOpts : AlertOptions :=
  ⟨"u", "AWS", "acct", unknownFinding⟩

/-- A single-alert request whose severity string is not one of the four
recognized labels. -/
def unknownReq : AlertRequest :=
  ⟨"UNKNOWN", "T", none, "r", none, none, none, "AWS", none⟩

/-- A critical finding (uppercase severity). -/
def critFinding : Finding :=
  ⟨"CRITICAL", "T", none, "r", none, none, none⟩

/-- Alert options carrying `critFinding`. -/
def critOpts : AlertOptions :=
  ⟨"u", "AWS", "acct", critFinding⟩

/-- A single-alert request with lowercase severity "critical". -/
def lowercaseCritReq : AlertRequest :=
  ⟨"critical", "T", none, "r", none, none, none, "AWS", none⟩

/-- A single-alert request with uppercase severity "CRITICAL". -/
def critReq : AlertRequest :=
  ⟨"CRITICAL", "T", none, "r", none, none, none, "AWS", none⟩

/-- A single-alert request with a severity that is none of the four labels. -/
def bananaReq : AlertRequest :=
  ⟨"BANANA", "T", none, "r", none, none, none, "AWS", none⟩

/-- A settings-upsert body whose webhook URL is the empty string. -/
def bodyEmptyUrl : SettingsBody :=
  ⟨some "", none, none, none, none, none, none, none⟩

/-- The payload `sendSpikeAlert` builds for `critOpts` at timestamp "TS". -/
def critPayloadTS : SpikePayload :=
  { title := "[AWS] CRITICAL: T"
    message := "T"
    status := "CRITICAL"
    priority := "P1"
    source := "CloudGuard Security Dashboard"
    timestamp := "TS"
    metadata := ⟨"CRITICAL", "AWS", "r", none, none, some "acct", none⟩ }

/-! ### Characterization lemmas for the dispatch functions -/

/-- Master case analysis of `sendSpikeAlert`: either the gate declines and
the call is a silent no-op, or the gate passes, exactly one payload with the
documented fields is POSTed to the configured URL, and the boolean result and
logs are determined by the fetch outcome. -/
theorem sendSpikeAlert_cases (db : String → Option UserSettings)
    (fetch : String → SpikePayload → FetchResult)
    (opts : AlertOptions) (now : String) :
    (sendSpikeAlert db fetch opts now = ⟨false, [], []⟩ ∧
      ∀ s, db opts.userId = some s → s.spikeEnabled = true →
        truthyStr s.spikeWebhookUrl = true →
        ¬((toUpperCase opts.finding.severity = "CRITICAL" ∧ s.spikeAlertOnCritical = true) ∨
          (toUpperCase opts.finding.severity = "HIGH" ∧ s.spikeAlertOnHigh = true)))
    ∨
    (∃ s p, db opts.userId = some s ∧ s.spikeEnabled = true ∧
      truthyStr s.spikeWebhookUrl = true ∧
      ((toUpperCase opts.finding.severity = "CRITICAL" ∧ s.spikeAlertOnCritical = true) ∨
        (toUpperCase opts.finding.severity = "HIGH" ∧ s.spikeAlertOnHigh = true)) ∧
      (sendSpikeAlert db fetch opts now).dispatched = [(s.spikeWebhookUrl.getD "", p)] ∧
      p.title = "[" ++ opts.cloudProvider ++ "] " ++ toUpperCase opts.finding.severity
        ++ ": " ++ opts.finding.title ∧
      p.message = jsOrStr opts.finding.description opts.finding.title ∧
      p.status = (if toUpperCase opts.finding.severity = "CRITICAL" then "CRITICAL" else "WARNING") ∧
      p.priority = mapSeverityToPriority (toUpperCase opts.finding.severity) ∧
      p.source = "CloudGuard Security Dashboard" ∧
      p.timestamp = now ∧
      p.metadata = ⟨opts.finding.severity, opts.cloudProvider, opts.finding.resource,
        opts.finding.resourceType, opts.finding.region, some opts.accountName,
        opts.finding.recommendation⟩ ∧
      ((∃ st body, fetch (s.spikeWebhookUrl.getD "") p = FetchResult.response st body ∧
          (sendSpikeAlert db fetch opts now).result = responseOk st ∧
          (responseOk st = false →
            (sendSpikeAlert db fetch opts now).logs = ["Spike.sh alert failed:" ++ body])) ∨
        (∃ msg, fetch (s.spikeWebhookUrl.getD "") p = FetchResult.transportError msg ∧
          (sendSpikeAlert db fetch opts now).result = false ∧
          (sendSpikeAlert db fetch opts now).logs = ["Error sending Spike.sh alert:" ++ msg]))) := by
  unfold sendSpikeAlert
  cases hdb : db opts.userId with
  | none =>
    left
    exact ⟨rfl, by intro s hs; cases hs⟩
  | some s =>
    dsimp only
    by_cases hen : s.spikeEnabled = true
    · by_cases htr : truthyStr s.spikeWebhookUrl = true
      · rw [if_neg (by simp [hen, htr])]
        by_cases hc : toUpperCase opts.finding.severity = "CRITICAL"
        · by_cases hac : s.spikeAlertOnCritical = true
          · rw [if_neg (by simp [hc, hac]), if_neg (by simp [hc]), if_neg (by simp [hc])]
            split
            next st body hf =>
              by_cases hok : responseOk st = true
              · rw [if_neg (by simp [hok])]
                exact Or.inr ⟨s, _, rfl, hen, htr, Or.inl ⟨hc, hac⟩, rfl, rfl, rfl,
                  (by simp [hc]), rfl, rfl, rfl, rfl,
                  Or.inl ⟨st, body, hf, hok.symm,
                    by intro h; rw [hok] at h; exact Bool.noConfusion h⟩⟩
              · rw [if_pos (by simp [Bool.not_eq_true] at hok; simp [hok])]
                simp only [Bool.not_eq_true] at hok
                exact Or.inr ⟨s, _, rfl, hen, htr, Or.inl ⟨hc, hac⟩, rfl, rfl, rfl,
                  (by simp [hc]), rfl, rfl, rfl, rfl,
                  Or.inl ⟨st, body, hf, hok.symm, fun _ => rfl⟩⟩
            next msg hf =>
              exact Or.inr ⟨s, _, rfl, hen, htr, Or.inl ⟨hc, hac⟩, rfl, rfl, rfl,
                (by simp [hc]), rfl, rfl, rfl, rfl, Or.inr ⟨msg, hf, rfl, rfl⟩⟩
          · rw [if_pos (by simp only [Bool.not_eq_true] at hac; simp [hc, hac])]
            left
            refine ⟨rfl, ?_⟩
            intro s' hs' _ _ halert
            injection hs' with h; subst h
            rcases halert with ⟨_, hac'⟩ | ⟨hh, _⟩
            · exact hac hac'
            · rw [hc] at hh; exact absurd hh (by decide)
        · by_cases hh : toUpperCase opts.finding.severity = "HIGH"
          · by_cases hah : s.spikeAlertOnHigh = true
            · rw [if_neg (by simp [hc]), if_neg (by simp [hh, hah]), if_neg (by simp [hh])]
              split
              next st body hf =>
                by_cases hok : responseOk st = true
                · rw [if_neg (by simp [hok])]
                  exact Or.inr ⟨s, _, rfl, hen, htr, Or.inr ⟨hh, hah⟩, rfl, rfl, rfl,
                    (by simp [hh, hc]), rfl, rfl, rfl, rfl,
                    Or.inl ⟨st, body, hf, hok.symm,
                      by intro h; rw [hok] at h; exact Bool.noConfusion h⟩⟩
                · rw [if_pos (by simp [Bool.not_eq_true] at hok; simp [hok])]
                  simp only [Bool.not_eq_true] at hok
                  exact Or.inr ⟨s, _, rfl, hen, htr, Or.inr ⟨hh, hah⟩, rfl, rfl, rfl,
                    (by simp [hh, hc]), rfl, rfl, rfl, rfl,
                    Or.inl ⟨st, body, hf, hok.symm, fun _ => rfl⟩⟩
              next msg hf =>
                exact Or.inr ⟨s, _, rfl, hen, htr, Or.inr ⟨hh, hah⟩, rfl, rfl, rfl,
                  (by simp [hh, hc]), rfl, rfl, rfl, rfl, Or.inr ⟨msg, hf, rfl, rfl⟩⟩
            · rw [if_neg (by simp [hc]),
                  if_pos (by simp [Bool.not_eq_true] at hah; simp [hah, hh])]
              left
              refine ⟨rfl, ?_⟩
              intro s' hs' _ _ halert
              injection hs' with h; subst h
              rcases halert with ⟨hc', _⟩ | ⟨_, hah'⟩
              · exact hc hc'
              · exact hah hah'
          · rw [if_neg (by simp [hc]), if_neg (by simp [hh]),
                if_pos (by simp [hc, hh])]
            left
            refine ⟨rfl, ?_⟩
            intro s' hs' _ _ halert
            rcases halert with ⟨hc', _⟩ | ⟨hh', _⟩
            · exact hc hc'
            · exact hh hh'
      · rw [if_pos (by simp [Bool.not_eq_true] at htr; simp [htr])]
        left
        refine ⟨rfl, ?_⟩
        intro s' hs' _ htr' _
        injection hs' with h; subst h
        exact htr htr'
    · rw [if_pos (by simp [Bool.not_eq_true] at hen; simp [hen])]
      left
      refine ⟨rfl, ?_⟩
      intro s' hs' hen' _ _
      injection hs' with h; subst h
      exact hen hen'

/-- Master case analysis of the single-alert route: either no payload is
dispatched and (when the integration is enabled) the severity gate declined,
or exactly one payload with the documented fields — the raw request severity
interpolated into title and metadata — is POSTed to the configured URL. -/
theorem routeSpikeAlertPost_cases (stg : Option UserSettings) (payload : AlertRequest)
    (fetch : String → SpikePayload → FetchResult) (now : String) :
    ((routeSpikeAlertPost stg payload fetch now).dispatched = [] ∧
      ∀ s, stg = some s → s.spikeEnabled = true → truthyStr s.spikeWebhookUrl = true →
        ((toUpperCase payload.severity = "CRITICAL" ∧ s.spikeAlertOnCritical = false) ∨
         (toUpperCase payload.severity = "HIGH" ∧ s.spikeAlertOnHigh = false) ∨
         toUpperCase payload.severity = "MEDIUM" ∨ toUpperCase payload.severity = "LOW"))
    ∨
    (∃ s p, stg = some s ∧ s.spikeEnabled = true ∧ truthyStr s.spikeWebhookUrl = true ∧
      ¬(toUpperCase payload.severity = "CRITICAL" ∧ s.spikeAlertOnCritical = false) ∧
      ¬(toUpperCase payload.severity = "HIGH" ∧ s.spikeAlertOnHigh = false) ∧
      toUpperCase payload.severity ≠ "MEDIUM" ∧ toUpperCase payload.severity ≠ "LOW" ∧
      (routeSpikeAlertPost stg payload fetch now).dispatched = [(s.spikeWebhookUrl.getD "", p)] ∧
      p.title = "[" ++ payload.cloudProvider ++ "] " ++ payload.severity
        ++ ": " ++ payload.title ∧
      p.message = jsOrStr payload.description payload.title ∧
      p.status = (if toUpperCase payload.severity == "CRITICAL" then "CRITICAL" else "WARNING") ∧
      p.priority = routeMapSeverityToPriority payload.severity ∧
      p.source = "CloudGuard Security Dashboard" ∧
      p.timestamp = now ∧
      p.metadata = ⟨payload.severity, payload.cloudProvider, payload.resource,
        payload.resourceType, payload.region, payload.accountName,
        payload.recommendation⟩) := by
  unfold routeSpikeAlertPost
  cases stg with
  | none =>
    left
    exact ⟨rfl, by intro s hs; cases hs⟩
  | some s =>
    dsimp only
    by_cases hen : s.spikeEnabled = true
    · by_cases htr : truthyStr s.spikeWebhookUrl = true
      · rw [if_neg (by simp [hen, htr])]
        by_cases h1 : (toUpperCase payload.severity == "CRITICAL" && !s.spikeAlertOnCritical) = true
        · rw [if_pos h1]
          simp only [Bool.and_eq_true, beq_iff_eq, Bool.not_eq_true'] at h1
          left
          refine ⟨rfl, ?_⟩
          intro s' hs' _ _
          injection hs' with h; subst h
          exact Or.inl h1
        · rw [if_neg h1]
          by_cases h2 : (toUpperCase payload.severity == "HIGH" && !s.spikeAlertOnHigh) = true
          · rw [if_pos h2]
            simp only [Bool.and_eq_true, beq_iff_eq, Bool.not_eq_true'] at h2
            left
            refine ⟨rfl, ?_⟩
            intro s' hs' _ _
            injection hs' with h; subst h
            exact Or.inr (Or.inl h2)
          · rw [if_neg h2]
            by_cases h3 : (toUpperCase payload.severity == "MEDIUM"
                || toUpperCase payload.severity == "LOW") = true
            · rw [if_pos h3]
              simp only [Bool.or_eq_true, beq_iff_eq] at h3
              left
              refine ⟨rfl, ?_⟩
              intro s' hs' _ _
              injection hs' with h; subst h
              exact Or.inr (Or.inr h3)
            · rw [if_neg h3]
              simp only [Bool.and_eq_true, beq_iff_eq, Bool.not_eq_true', not_and] at h1 h2
              simp only [Bool.or_eq_true, beq_iff_eq, not_or] at h3
              have hn1 : ¬(toUpperCase payload.severity = "CRITICAL" ∧ s.spikeAlertOnCritical = false) :=
                fun hx => h1 hx.1 hx.2
              have hn2 : ¬(toUpperCase payload.severity = "HIGH" ∧ s.spikeAlertOnHigh = false) :=
                fun hx => h2 hx.1 hx.2
              split
              next st body hf =>
                by_cases hok : responseOk st = true
                · rw [if_neg (by simp [hok])]
                  exact Or.inr ⟨s, _, rfl, hen, htr, hn1, hn2, h3.1, h3.2,
                    rfl, rfl, rfl, rfl, rfl, rfl, rfl, rfl⟩
                · rw [if_pos (by simp [Bool.not_eq_true] at hok; simp [hok])]
                  exact Or.inr ⟨s, _, rfl, hen, htr, hn1, hn2, h3.1, h3.2,
                    rfl, rfl, rfl, rfl, rfl, rfl, rfl, rfl⟩
              next msg hf =>
                exact Or.inr ⟨s, _, rfl, hen, htr, hn1, hn2, h3.1, h3.2,
                  rfl, rfl, rfl, rfl, rfl, rfl, rfl, rfl⟩
      · rw [if_pos (by simp [Bool.not_eq_true] at htr; simp [htr])]
        left
        refine ⟨rfl, ?_⟩
        intro s' hs' _ htr'
        injection hs' with h; subst h
        exact absurd htr' htr
    · rw [if_pos (by simp [Bool.not_eq_true] at hen; simp [hen])]
      left
      refine ⟨rfl, ?_⟩
      intro s' hs' hen' _
      injection hs' with h; subst h
      exact absurd hen' hen

/-- The fold step of `sendBulkSpikeAlerts` increments exactly one of the two
counters per processed finding. -/
theorem bulk_foldl_counts (db : String → Option UserSettings)
    (fetch : String → SpikePayload → FetchResult)
    (userId cloudProvider accountName now : String) :
    ∀ (l : List Finding) (acc : BulkOutcome),
      (l.foldl
        (fun acc finding =>
          let r := sendSpikeAlert db fetch ⟨userId, cloudProvider, accountName, finding⟩ now
          if r.result then
            (⟨acc.sent + 1, acc.skipped, acc.dispatched ++ r.dispatched⟩ : BulkOutcome)
          else
            ⟨acc.sent, acc.skipped + 1, acc.dispatched ++ r.dispatched⟩) acc).sent
      + (l.foldl
        (fun acc finding =>
          let r := sendSpikeAlert db fetch ⟨userId, cloudProvider, accountName, finding⟩ now
          if r.result then
            (⟨acc.sent + 1, acc.skipped, acc.dispatched ++ r.dispatched⟩ : BulkOutcome)
          else
            ⟨acc.sent, acc.skipped + 1, acc.dispatched ++ r.dispatched⟩) acc).skipped
      = acc.sent + acc.skipped + l.length := by
  intro l
  induction l with
  | nil => intro acc; simp
  | cons f t ih =>
    intro acc
    simp only [List.foldl_cons, List.length_cons]
    rw [ih]
    by_cases hr :
        (sendSpikeAlert db fetch ⟨userId, cloudProvider, accountName, f⟩ now).result = true
    · rw [if_pos hr]; dsimp only; omega
    · rw [if_neg hr]; dsimp only; omega

/-- Every entry of the bulk dispatch log either was in the accumulator or
comes from the single-alert call on one of the processed findings. -/
theorem bulk_foldl_dispatched (db : String → Option UserSettings)
    (fetch : String → SpikePayload → FetchResult)
    (userId cloudProvider accountName now : String) :
    ∀ (l : List Finding) (acc : BulkOutcome) (e : String × SpikePayload),
      e ∈ (l.foldl
        (fun acc finding =>
          let r := sendSpikeAlert db fetch ⟨userId, cloudProvider, accountName, finding⟩ now
          if r.result then
            (⟨acc.sent + 1, acc.skipped, acc.dispatched ++ r.dispatched⟩ : BulkOutcome)
          else
            ⟨acc.sent, acc.skipped + 1, acc.dispatched ++ r.dispatched⟩) acc).dispatched →
      e ∈ acc.dispatched ∨ ∃ f, f ∈ l ∧
        e ∈ (sendSpikeAlert db fetch ⟨userId, cloudProvider, accountName, f⟩ now).dispatched := by
  intro l
  induction l with
  | nil => intro acc e he; exact Or.inl he
  | cons f t ih =>
    intro acc e he
    simp only [List.foldl_cons] at he
    rcases ih _ e he with hacc | ⟨g, hg, hmem⟩
    · by_cases hr :
          (sendSpikeAlert db fetch ⟨userId, cloudProvider, accountName, f⟩ now).result = true
      · rw [if_pos hr] at hacc
        dsimp only at hacc
        rcases List.mem_append.mp hacc with h | h
        · exact Or.inl h
        · exact Or.inr ⟨f, List.mem_cons_self f t, h⟩
      · rw [if_neg hr] at hacc
        dsimp only at hacc
        rcases List.mem_append.mp hacc with h | h
        · exact Or.inl h
        · exact Or.inr ⟨f, List.mem_cons_self f t, h⟩
    · exact Or.inr ⟨g, List.mem_cons_of_mem f hg, hmem⟩

/-- Any payload dispatched by `sendSpikeAlert` carries the finding's raw
severity in its metadata, and that severity uppercases to CRITICAL or HIGH. -/
theorem sendSpikeAlert_mem_dispatched (db : String → Option UserSettings)
    (fetch : String → SpikePayload → FetchResult)
    (opts : AlertOptions) (now : String) (e : String × SpikePayload)
    (he : e ∈ (sendSpikeAlert db fetch opts now).dispatched) :
    e.2.metadata.severity = opts.finding.severity ∧
    (toUpperCase opts.finding.severity = "CRITICAL" ∨
      toUpperCase opts.finding.severity = "HIGH") := by
  rcases sendSpikeAlert_cases db fetch opts now with ⟨hout, _⟩ |
    ⟨s, p, _, _, _, halert, hd, _, _, _, _, _, _, hmeta, _⟩
  · rw [hout] at he
    cases he
  · rw [hd] at he
    have hep : e = (s.spikeWebhookUrl.getD "", p) := List.mem_singleton.mp he
    subst hep
    refine ⟨by rw [hmeta], ?_⟩
    rcases halert with ⟨h, _⟩ | ⟨h, _⟩
    · exact Or.inl h
    · exact Or.inr h

/-! ### Claim theorems -/

/-- C5: `mapSeverityToPriority` is a total function on strings returning
exactly one of P1, P2, P3, P4, matching the severity label
case-insensitively (CRITICAL→P1, HIGH→P2, MEDIUM→P3, LOW→P4, anything
else→P3); it never throws, and the route's copy agrees with the library's
everywhere. -/
theorem mapSeverityToPriority_total (sev : String) :
    (mapSeverityToPriority sev = "P1" ∨ mapSeverityToPriority sev = "P2" ∨
      mapSeverityToPriority sev = "P3" ∨ mapSeverityToPriority sev = "P4") ∧
    (toUpperCase sev = "CRITICAL" → mapSeverityToPriority sev = "P1") ∧
    (toUpperCase sev = "HIGH" → mapSeverityToPriority sev = "P2") ∧
    (toUpperCase sev = "MEDIUM" → mapSeverityToPriority sev = "P3") ∧
    (toUpperCase sev = "LOW" → mapSeverityToPriority sev = "P4") ∧
    (toUpperCase sev ≠ "CRITICAL" → toUpperCase sev ≠ "HIGH" → toUpperCase sev ≠ "MEDIUM" →
      toUpperCase sev ≠ "LOW" → mapSeverityToPriority sev = "P3") ∧
    routeMapSeverityToPriority sev = mapSeverityToPriority sev := by
  unfold mapSeverityToPriority routeMapSeverityToPriority
  by_cases h1 : toUpperCase sev = "CRITICAL" <;>
    by_cases h2 : toUpperCase sev = "HIGH" <;>
      by_cases h3 : toUpperCase sev = "MEDIUM" <;>
        by_cases h4 : toUpperCase sev = "LOW" <;>
          simp_all

/-- Witness for C5 at a concrete unrecognized severity string. -/
theorem mapSeverityToPriority_total_witness :
    mapSeverityToPriority "banana" = "P3" :=
  (mapSeverityToPriority_total "banana").2.2.2.2.2.1
    (by decide) (by decide) (by decide) (by decide)

/-- C4: `sendBulkSpikeAlerts` processes exactly the findings whose severity
uppercases to CRITICAL or HIGH, once each, and its returned counters always
satisfy sent + skipped = number of such findings — for every settings lookup
and every webhook behaviour, in particular when individual sends fail, so a
failed dispatch never aborts the batch and non-alertable findings are never
counted. -/
theorem sendBulkSpikeAlerts_counts (db : String → Option UserSettings)
    (fetch : String → SpikePayload → FetchResult)
    (userId cloudProvider accountName : String)
    (findings : List Finding) (now : String) :
    (sendBulkSpikeAlerts db fetch userId cloudProvider accountName findings now).sent
      + (sendBulkSpikeAlerts db fetch userId cloudProvider accountName findings now).skipped
      = (findings.filter isAlertable).length := by
  unfold sendBulkSpikeAlerts
  rw [bulk_foldl_counts db fetch userId cloudProvider accountName now
    (findings.filter isAlertable) ⟨0, 0, []⟩]
  simp

/-- C10: the default alert configuration for a user with no stored settings
is spikeEnabled = false, spikeAlertOnCritical = true, spikeAlertOnHigh =
false with an empty (falsy) webhook URL, both in the settings GET fallback
object and in the upsert create branch when the body omits every field. -/
theorem default_settings_consistent :
    (upsertUserSettings none emptySettingsBody).spikeEnabled = false ∧
    (upsertUserSettings none emptySettingsBody).spikeAlertOnCritical = true ∧
    (upsertUserSettings none emptySettingsBody).spikeAlertOnHigh = false ∧
    truthyStr (upsertUserSettings none emptySettingsBody).spikeWebhookUrl = false ∧
    (getSettings none).spikeEnabled = false ∧
    (getSettings none).spikeAlertOnCritical = true ∧
    (getSettings none).spikeAlertOnHigh = false ∧
    truthyStr (getSettings none).spikeWebhookUrl = false := by
  decide

/-- C8 counterexample: upserting twice with a body whose webhook URL is the
empty string does not leave the stored settings unchanged — the create
branch stores null (`"" || null`), the second, update branch stores `""`. -/
theorem settings_upsert_not_idempotent :
    upsertUserSettings (some (upsertUserSettings none bodyEmptyUrl)) bodyEmptyUrl
      ≠ upsertUserSettings none bodyEmptyUrl := by
  decide

/-- C8 (amended): the settings upsert is idempotent provided no string field
of the body is present as the empty string (the only case where the create
branch normalizes — to null or to the default threshold — while the update
branch stores the empty string verbatim); from an existing record the update
branch is idempotent unconditionally. -/
theorem settings_upsert_idempotent (existing : Option UserSettings)
    (body : SettingsBody)
    (h1 : body.spikeWebhookUrl ≠ some "") (h2 : body.slackWebhookUrl ≠ some "")
    (h3 : body.alertThreshold ≠ some "") :
    upsertUserSettings (some (upsertUserSettings existing body)) body
      = upsertUserSettings existing body := by
  obtain ⟨u, e, ac, ah, su, se, em, th⟩ := body
  simp only [ne_eq] at h1 h2 h3
  cases existing with
  | some s =>
    cases u <;> cases e <;> cases ac <;> cases ah <;> cases su <;>
      cases se <;> cases em <;> cases th <;> rfl
  | none =>
    cases u <;> cases su <;> cases th <;> cases e <;> cases ac <;>
      cases ah <;> cases se <;> cases em <;>
        simp_all [upsertUserSettings, jsOrNull, jsOrStr]

/-- Witness for C8 (amended) at the all-fields-omitted body. -/
theorem settings_upsert_idempotent_witness :
    upsertUserSettings (some (upsertUserSettings none emptySettingsBody)) emptySettingsBody
      = upsertUserSettings none emptySettingsBody :=
  settings_upsert_idempotent none emptySettingsBody
    (by decide) (by decide) (by decide)

/-- C2 (amended): the library dispatch paths (`sendSpikeAlert` and
`sendBulkSpikeAlerts`) construct payloads only for findings whose severity
uppercases to CRITICAL or HIGH; the single-alert route never dispatches for
MEDIUM or LOW severities, but does dispatch unrecognized severity strings
when the integration is enabled. -/
theorem alert_payload_severity_invariant (db : String → Option UserSettings)
    (fetch : String → SpikePayload → FetchResult) (opts : AlertOptions)
    (userId cloudProvider accountName : String) (findings : List Finding)
    (stg : Option UserSettings) (req : AlertRequest) (now : String) :
    (∀ e ∈ (sendSpikeAlert db fetch opts now).dispatched,
      toUpperCase e.2.metadata.severity = "CRITICAL" ∨
        toUpperCase e.2.metadata.severity = "HIGH") ∧
    (∀ e ∈ (sendBulkSpikeAlerts db fetch userId cloudProvider accountName
        findings now).dispatched,
      toUpperCase e.2.metadata.severity = "CRITICAL" ∨
        toUpperCase e.2.metadata.severity = "HIGH") ∧
    (∀ e ∈ (routeSpikeAlertPost stg req fetch now).dispatched,
      toUpperCase e.2.metadata.severity ≠ "MEDIUM" ∧
        toUpperCase e.2.metadata.severity ≠ "LOW") := by
  refine ⟨?_, ?_, ?_⟩
  · intro e he
    have h := sendSpikeAlert_mem_dispatched db fetch opts now e he
    rw [h.1]
    exact h.2
  · intro e he
    unfold sendBulkSpikeAlerts at he
    rcases bulk_foldl_dispatched db fetch userId cloudProvider accountName now
      (findings.filter isAlertable) ⟨0, 0, []⟩ e he with hacc | ⟨f, _, hmem⟩
    · cases hacc
    · have h := sendSpikeAlert_mem_dispatched db fetch
        ⟨userId, cloudProvider, accountName, f⟩ now e hmem
      rw [h.1]
      exact h.2
  · intro e he
    rcases routeSpikeAlertPost_cases stg req fetch now with ⟨hout, _⟩ |
      ⟨s, p, _, _, _, _, _, hm, hl, hd, _, _, _, _, _, _, hmeta⟩
    · rw [hout] at he
      cases he
    · rw [hd] at he
      have hep : e = (s.spikeWebhookUrl.getD "", p) := List.mem_singleton.mp he
      subst hep
      rw [hmeta]
      exact ⟨hm, hl⟩

/-- Witness for C2 (amended): a concrete enabled run dispatches exactly one
payload, whose metadata severity is CRITICAL. -/
theorem alert_payload_severity_invariant_witness :
    toUpperCase critPayloadTS.metadata.severity = "CRITICAL" ∨
      toUpperCase critPayloadTS.metadata.severity = "HIGH" :=
  (alert_payload_severity_invariant (fun _ => some enabledAll) okFetch critOpts
      "u" "AWS" "acct" [] (some enabledAll) critReq "TS").1
    ("https://spike.example/hook", critPayloadTS) (by decide)

/-- C2 counterexample: with the integration enabled, the single-alert route
constructs and POSTs a payload for a finding whose severity ("BANANA") is
neither CRITICAL nor HIGH, contradicting the claimed invariant that payloads
are only ever constructed for CRITICAL or HIGH findings. -/
theorem route_dispatches_unrecognized_severity :
    (routeSpikeAlertPost (some enabledAll) bananaReq okFetch "TS").dispatched.map
        (fun e => e.2.metadata.severity) = ["BANANA"] ∧
    toUpperCase "BANANA" ≠ "CRITICAL" ∧ toUpperCase "BANANA" ≠ "HIGH" := by
  decide

/-- C3: with the integration enabled and a webhook URL configured,
`sendAuditSummaryAlert` dispatches no payload (and returns false) exactly
when the summary has no critical and no high findings; when it dispatches,
the payload carries status CRITICAL and priority P1 if any critical finding
exists, else status WARNING and priority P2. -/
theorem summary_alert_policy (db : String → Option UserSettings)
    (fetch : String → SummaryPayload → FetchResult)
    (userId cloudProvider accountName : String)
    (summary : AuditSummary) (now : String) (s : UserSettings)
    (hdb : db userId = some s) (hen : s.spikeEnabled = true)
    (htr : truthyStr s.spikeWebhookUrl = true) :
    ((sendAuditSummaryAlert db fetch userId cloudProvider accountName
        summary now).dispatched = [] ↔
      summary.critical = 0 ∧ summary.high = 0) ∧
    (summary.critical = 0 ∧ summary.high = 0 →
      (sendAuditSummaryAlert db fetch userId cloudProvider accountName
        summary now).result = false) ∧
    (summary.critical > 0 →
      ∀ e ∈ (sendAuditSummaryAlert db fetch userId cloudProvider accountName
        summary now).dispatched,
        e.2.status = "CRITICAL" ∧ e.2.priority = "P1") ∧
    (summary.critical = 0 → summary.high > 0 →
      ∀ e ∈ (sendAuditSummaryAlert db fetch userId cloudProvider accountName
        summary now).dispatched,
        e.2.status = "WARNING" ∧ e.2.priority = "P2") := by
  unfold sendAuditSummaryAlert
  cases hdb2 : db userId with
  | none => rw [hdb] at hdb2; cases hdb2
  | some s2 =>
    rw [hdb] at hdb2
    injection hdb2 with heq
    subst heq
    dsimp only
    rw [if_neg (by simp [hen, htr])]
    by_cases hz : (summary.critical == 0 && summary.high == 0) = true
    · rw [if_pos hz]
      simp only [Bool.and_eq_true, beq_iff_eq] at hz
      refine ⟨by simp [hz], fun _ => rfl, ?_, ?_⟩
      · intro _ e he
        cases he
      · intro _ _ e he
        cases he
    · rw [if_neg hz]
      simp only [Bool.and_eq_true, beq_iff_eq, not_and] at hz
      have hnz : ¬(summary.critical = 0 ∧ summary.high = 0) := fun hx => hz hx.1 hx.2
      split
      next st body hf =>
        by_cases hok : responseOk st = true
        · rw [if_neg (by simp [hok])]
          refine ⟨by simp [hnz], fun hx => absurd hx hnz, ?_, ?_⟩
          · intro hgt e he
            have hep := List.mem_singleton.mp he
            subst hep
            exact ⟨by dsimp only; rw [if_pos hgt], by dsimp only; rw [if_pos hgt]⟩
          · intro hc0 hh e he
            have hep := List.mem_singleton.mp he
            subst hep
            have hng : ¬summary.critical > 0 := by omega
            exact ⟨by dsimp only; rw [if_neg hng], by dsimp only; rw [if_neg hng]⟩
        · rw [if_pos (by simp [Bool.not_eq_true] at hok; simp [hok])]
          refine ⟨by simp [hnz], fun hx => absurd hx hnz, ?_, ?_⟩
          · intro hgt e he
            have hep := List.mem_singleton.mp he
            subst hep
            exact ⟨by dsimp only; rw [if_pos hgt], by dsimp only; rw [if_pos hgt]⟩
          · intro hc0 hh e he
            have hep := List.mem_singleton.mp he
            subst hep
            have hng : ¬summary.critical > 0 := by omega
            exact ⟨by dsimp only; rw [if_neg hng], by dsimp only; rw [if_neg hng]⟩
      next msg hf =>
        refine ⟨by simp [hnz], fun hx => absurd hx hnz, ?_, ?_⟩
        · intro hgt e he
          have hep := List.mem_singleton.mp he
          subst hep
          exact ⟨by dsimp only; rw [if_pos hgt], by dsimp only; rw [if_pos hgt]⟩
        · intro hc0 hh e he
          have hep := List.mem_singleton.mp he
          subst hep
          have hng : ¬summary.critical > 0 := by omega
          exact ⟨by dsimp only; rw [if_neg hng], by dsimp only; rw [if_neg hng]⟩

/-- Witness for C3: a summary with only medium/low findings produces no
alert under fully enabled settings. -/
theorem summary_alert_policy_witness :
    (sendAuditSummaryAlert (fun _ => some enabledAll) okSummaryFetch
      "u" "AWS" "acct" ⟨0, 0, 5, 2, 7⟩ "TS").dispatched = [] :=
  ((summary_alert_policy (fun _ => some enabledAll) okSummaryFetch
      "u" "AWS" "acct" ⟨0, 0, 5, 2, 7⟩ "TS" enabledAll rfl rfl (by decide)).1).mpr
    ⟨rfl, rfl⟩

/-- C6: the webhook send step of `sendSpikeAlert` returns true exactly when
the HTTP response status is 2xx; on a non-2xx response it logs the response
body and returns false; on a transport-level failure it catches the error,
logs it, and returns false.  The function is total, so no error is ever
propagated to the caller — an endpoint answering HTTP 500 yields false
without raising. -/
theorem webhook_send_result (db : String → Option UserSettings)
    (fetch : String → SpikePayload → FetchResult)
    (opts : AlertOptions) (now : String) :
    ((sendSpikeAlert db fetch opts now).dispatched = [] →
      (sendSpikeAlert db fetch opts now).result = false) ∧
    (∀ url p, (sendSpikeAlert db fetch opts now).dispatched = [(url, p)] →
      ((sendSpikeAlert db fetch opts now).result = true ↔
        ∃ st body, fetch url p = FetchResult.response st body ∧ responseOk st = true) ∧
      (∀ st body, fetch url p = FetchResult.response st body → responseOk st = false →
        (sendSpikeAlert db fetch opts now).result = false ∧
        (sendSpikeAlert db fetch opts now).logs = ["Spike.sh alert failed:" ++ body]) ∧
      (∀ msg, fetch url p = FetchResult.transportError msg →
        (sendSpikeAlert db fetch opts now).result = false ∧
        (sendSpikeAlert db fetch opts now).logs =
          ["Error sending Spike.sh alert:" ++ msg])) := by
  rcases sendSpikeAlert_cases db fetch opts now with ⟨hout, _⟩ |
    ⟨s, p0, _, _, _, _, hd0, _, _, _, _, _, _, _, hfd⟩
  · constructor
    · intro _
      rw [hout]
    · intro url p hd
      rw [hout] at hd
      cases hd
  · constructor
    · intro h
      rw [hd0] at h
      cases h
    · intro url p hd
      rw [hd0] at hd
      simp only [List.cons.injEq, Prod.mk.injEq, and_true] at hd
      obtain ⟨hu, hp⟩ := hd
      subst hu
      subst hp
      rcases hfd with ⟨st, body, hf, hres, hlog⟩ | ⟨msg, hf, hres, hlog⟩
      · refine ⟨?_, ?_, ?_⟩
        · constructor
          · intro htrue
            rw [hres] at htrue
            exact ⟨st, body, hf, htrue⟩
          · rintro ⟨st2, body2, hf2, hok2⟩
            rw [hf] at hf2
            injection hf2 with hst hbody
            subst hst
            rw [hres]
            exact hok2
        · intro st2 body2 hf2 hnok
          rw [hf] at hf2
          injection hf2 with hst hbody
          subst hst
          subst hbody
          exact ⟨by rw [hres]; exact hnok, hlog hnok⟩
        · intro msg hf2
          rw [hf] at hf2
          cases hf2
      · refine ⟨?_, ?_, ?_⟩
        · constructor
          · intro htrue
            rw [hres] at htrue
            cases htrue
          · rintro ⟨st2, body2, hf2, _⟩
            rw [hf] at hf2
            cases hf2
        · intro st2 body2 hf2 _
          rw [hf] at hf2
          cases hf2
        · intro msg2 hf2
          rw [hf] at hf2
          injection hf2 with hmsg
          subst hmsg
          exact ⟨hres, hlog⟩

/-- Witness for C6: a concrete enabled dispatch to an endpoint answering
HTTP 500 returns false and logs the response body. -/
theorem webhook_send_result_witness :
    (sendSpikeAlert (fun _ => some enabledAll) failFetch critOpts "TS").result = false ∧
    (sendSpikeAlert (fun _ => some enabledAll) failFetch critOpts "TS").logs =
      ["Spike.sh alert failed:boom"] :=
  ((webhook_send_result (fun _ => some enabledAll) failFetch critOpts "TS").2
    "https://spike.example/hook" critPayloadTS (by decide)).2.1
    500 "boom" rfl (by decide)

/-- C7 (amended): the library's finding-alert payload has exactly the
documented fields, with the uppercased severity interpolated into the title
and message falling back to the title when the description is absent or
empty; the route's payload is identical except that the severity string of
the request is interpolated verbatim (not uppercased) into the title and
metadata, and the description/title fallback is the same. -/
theorem finding_alert_payload_fields (db : String → Option UserSettings)
    (fetch : String → SpikePayload → FetchResult) (opts : AlertOptions)
    (now : String) (stg : Option UserSettings) (req : AlertRequest) :
    (∀ url p, (url, p) ∈ (sendSpikeAlert db fetch opts now).dispatched →
      p.title = "[" ++ opts.cloudProvider ++ "] " ++ toUpperCase opts.finding.severity
        ++ ": " ++ opts.finding.title ∧
      ((opts.finding.description = none ∨ opts.finding.description = some "") →
        p.message = opts.finding.title) ∧
      (∀ d, opts.finding.description = some d → d ≠ "" → p.message = d) ∧
      p.status = (if toUpperCase opts.finding.severity = "CRITICAL" then "CRITICAL"
        else "WARNING") ∧
      p.priority = mapSeverityToPriority opts.finding.severity ∧
      p.source = "CloudGuard Security Dashboard" ∧
      p.timestamp = now ∧
      p.metadata = ⟨opts.finding.severity, opts.cloudProvider, opts.finding.resource,
        opts.finding.resourceType, opts.finding.region, some opts.accountName,
        opts.finding.recommendation⟩) ∧
    (∀ url p, (url, p) ∈ (routeSpikeAlertPost stg req fetch now).dispatched →
      p.title = "[" ++ req.cloudProvider ++ "] " ++ req.severity ++ ": " ++ req.title ∧
      ((req.description = none ∨ req.description = some "") → p.message = req.title) ∧
      (∀ d, req.description = some d → d ≠ "" → p.message = d) ∧
      p.status = (if toUpperCase req.severity == "CRITICAL" then "CRITICAL"
        else "WARNING") ∧
      p.priority = routeMapSeverityToPriority req.severity ∧
      p.source = "CloudGuard Security Dashboard" ∧
      p.timestamp = now ∧
      p.metadata = ⟨req.severity, req.cloudProvider, req.resource, req.resourceType,
        req.region, req.accountName, req.recommendation⟩) := by
  constructor
  · intro url p hmem
    rcases sendSpikeAlert_cases db fetch opts now with ⟨hout, _⟩ |
      ⟨s, p0, _, _, _, halert, hd, htitle, hmsg, hstat, hprio, hsrc, hts, hmeta, _⟩
    · rw [hout] at hmem
      cases hmem
    · rw [hd] at hmem
      have hep := List.mem_singleton.mp hmem
      simp only [Prod.mk.injEq] at hep
      obtain ⟨hu, hp⟩ := hep
      subst hu
      subst hp
      refine ⟨htitle, ?_, ?_, hstat, ?_, hsrc, hts, hmeta⟩
      · intro hdesc
        rw [hmsg]
        rcases hdesc with hnone | hempty
        · rw [hnone]
          simp [jsOrStr]
        · rw [hempty]
          simp [jsOrStr]
      · intro d hd2 hne
        rw [hmsg, hd2]
        simp [jsOrStr, hne]
      · rcases halert with ⟨hc, _⟩ | ⟨hh, _⟩
        · have hup : mapSeverityToPriority opts.finding.severity = "P1" := by
            unfold mapSeverityToPriority
            rw [hc]
            rfl
          have hup2 : mapSeverityToPriority (toUpperCase opts.finding.severity) = "P1" := by
            rw [hc]
            rfl
          rw [hprio, hup2, hup]
        · have hup : mapSeverityToPriority opts.finding.severity = "P2" := by
            unfold mapSeverityToPriority
            rw [hh]
            rfl
          have hup2 : mapSeverityToPriority (toUpperCase opts.finding.severity) = "P2" := by
            rw [hh]
            rfl
          rw [hprio, hup2, hup]
  · intro url p hmem
    rcases routeSpikeAlertPost_cases stg req fetch now with ⟨hout, _⟩ |
      ⟨s, p0, _, _, _, _, _, _, _, hd, htitle, hmsg, hstat, hprio, hsrc, hts, hmeta⟩
    · rw [hout] at hmem
      cases hmem
    · rw [hd] at hmem
      have hep := List.mem_singleton.mp hmem
      simp only [Prod.mk.injEq] at hep
      obtain ⟨hu, hp⟩ := hep
      subst hu
      subst hp
      refine ⟨htitle, ?_, ?_, hstat, hprio, hsrc, hts, hmeta⟩
      · intro hdesc
        rw [hmsg]
        rcases hdesc with hnone | hempty
        · rw [hnone]
          simp [jsOrStr]
        · rw [hempty]
          simp [jsOrStr]
      · intro d hd2 hne
        rw [hmsg, hd2]
        simp [jsOrStr, hne]

/-- Witness for C7 (amended): the concrete payload of an enabled critical
dispatch has the documented title. -/
theorem finding_alert_payload_fields_witness :
    critPayloadTS.title = "[" ++ critOpts.cloudProvider ++ "] "
      ++ toUpperCase critOpts.finding.severity ++ ": " ++ critOpts.finding.title :=
  ((finding_alert_payload_fields (fun _ => some enabledAll) okFetch critOpts "TS"
      (some enabledAll) critReq).1
    "https://spike.example/hook" critPayloadTS (by decide)).1

/-- C7 counterexample: the route interpolates the request's raw severity
string into the payload title, so with severity "critical" the title is not
built from the uppercased severity as claimed. -/
theorem route_title_raw_severity_counterexample :
    (routeSpikeAlertPost (some enabledAll) lowercaseCritReq okFetch "TS").dispatched.map
        (fun e => e.2.title) = ["[AWS] critical: T"] ∧
    "[AWS] critical: T" ≠ "[" ++ lowercaseCritReq.cloudProvider ++ "] "
      ++ toUpperCase lowercaseCritReq.severity ++ ": " ++ lowercaseCritReq.title := by
  decide

/-- C1 (amended): the per-finding alert decision in both the library and the
single-alert route returns false / skips when settings are missing, the
integration is disabled, or the webhook URL is absent; returns false for
CRITICAL when alertOnCritical is off and for HIGH when alertOnHigh is off;
returns false unconditionally for MEDIUM and LOW; both dispatch in the
remaining recognized cases; and for a severity that is none of the four
labels the library skips (returning false) while the route dispatches. -/
theorem alert_gate_decision (stg : Option UserSettings)
    (db : String → Option UserSettings) (fetch : String → SpikePayload → FetchResult)
    (opts : AlertOptions) (req : AlertRequest) (now : String)
    (hdb : db opts.userId = stg) (hsev : req.severity = opts.finding.severity) :
    (stg = none →
      (sendSpikeAlert db fetch opts now).dispatched = [] ∧
      (sendSpikeAlert db fetch opts now).result = false ∧
      (routeSpikeAlertPost stg req fetch now).dispatched = []) ∧
    (∀ s, stg = some s →
      (s.spikeEnabled = false ∨ truthyStr s.spikeWebhookUrl = false) →
      (sendSpikeAlert db fetch opts now).dispatched = [] ∧
      (sendSpikeAlert db fetch opts now).result = false ∧
      (routeSpikeAlertPost stg req fetch now).dispatched = []) ∧
    (∀ s, stg = some s → toUpperCase opts.finding.severity = "CRITICAL" →
      s.spikeAlertOnCritical = false →
      (sendSpikeAlert db fetch opts now).dispatched = [] ∧
      (sendSpikeAlert db fetch opts now).result = false ∧
      (routeSpikeAlertPost stg req fetch now).dispatched = []) ∧
    (∀ s, stg = some s → toUpperCase opts.finding.severity = "HIGH" →
      s.spikeAlertOnHigh = false →
      (sendSpikeAlert db fetch opts now).dispatched = [] ∧
      (sendSpikeAlert db fetch opts now).result = false ∧
      (routeSpikeAlertPost stg req fetch now).dispatched = []) ∧
    (toUpperCase opts.finding.severity = "MEDIUM" ∨
        toUpperCase opts.finding.severity = "LOW" →
      (sendSpikeAlert db fetch opts now).dispatched = [] ∧
      (sendSpikeAlert db fetch opts now).result = false ∧
      (routeSpikeAlertPost stg req fetch now).dispatched = []) ∧
    (∀ s, stg = some s → s.spikeEnabled = true → truthyStr s.spikeWebhookUrl = true →
      ((toUpperCase opts.finding.severity = "CRITICAL" ∧ s.spikeAlertOnCritical = true) ∨
        (toUpperCase opts.finding.severity = "HIGH" ∧ s.spikeAlertOnHigh = true)) →
      (sendSpikeAlert db fetch opts now).dispatched ≠ [] ∧
      (routeSpikeAlertPost stg req fetch now).dispatched ≠ []) ∧
    (∀ s, stg = some s → s.spikeEnabled = true → truthyStr s.spikeWebhookUrl = true →
      toUpperCase opts.finding.severity ≠ "CRITICAL" →
      toUpperCase opts.finding.severity ≠ "HIGH" →
      toUpperCase opts.finding.severity ≠ "MEDIUM" →
      toUpperCase opts.finding.severity ≠ "LOW" →
      (sendSpikeAlert db fetch opts now).dispatched = [] ∧
      (sendSpikeAlert db fetch opts now).result = false ∧
      (routeSpikeAlertPost stg req fetch now).dispatched ≠ []) := by
  have hsev2 : toUpperCase req.severity = toUpperCase opts.finding.severity := by
    rw [hsev]
  refine ⟨?_, ?_, ?_, ?_, ?_, ?_, ?_⟩
  · intro hnone
    subst hnone
    rcases sendSpikeAlert_cases db fetch opts now with ⟨hout, -⟩ |
      ⟨s, p, hdb2, -, -, -, -, -, -, -, -, -, -, -, -⟩
    · rcases routeSpikeAlertPost_cases none req fetch now with ⟨hout2, -⟩ |
        ⟨s2, p2, hstg2, -, -, -, -, -, -, -, -, -, -, -, -, -, -⟩
      · exact ⟨by simp [hout], by simp [hout], hout2⟩
      · cases hstg2
    · rw [hdb] at hdb2
      cases hdb2
  · intro s hsome hdis
    subst hsome
    rcases sendSpikeAlert_cases db fetch opts now with ⟨hout, -⟩ |
      ⟨s', p, hdb2, hen', htr', -, -, -, -, -, -, -, -, -, -⟩
    · rcases routeSpikeAlertPost_cases (some s) req fetch now with ⟨hout2, -⟩ |
        ⟨s2, p2, hstg2, hen2, htr2, -, -, -, -, -, -, -, -, -, -, -, -⟩
      · exact ⟨by simp [hout], by simp [hout], hout2⟩
      · injection hstg2 with h
        subst h
        rcases hdis with h | h
        · rw [h] at hen2; cases hen2
        · rw [h] at htr2; cases htr2
    · rw [hdb] at hdb2
      injection hdb2 with h
      subst h
      rcases hdis with h | h
      · rw [h] at hen'; cases hen'
      · rw [h] at htr'; cases htr'
  · intro s hsome hcrit hflag
    subst hsome
    rcases sendSpikeAlert_cases db fetch opts now with ⟨hout, -⟩ |
      ⟨s', p, hdb2, -, -, halert', -, -, -, -, -, -, -, -, -⟩
    · rcases routeSpikeAlertPost_cases (some s) req fetch now with ⟨hout2, -⟩ |
        ⟨s2, p2, hstg2, -, -, hn1, -, -, -, -, -, -, -, -, -, -, -⟩
      · exact ⟨by simp [hout], by simp [hout], hout2⟩
      · injection hstg2 with h
        subst h
        exact absurd ⟨hsev2.trans hcrit, hflag⟩ hn1
    · rw [hdb] at hdb2
      injection hdb2 with h
      subst h
      rcases halert' with ⟨-, hac⟩ | ⟨hh, -⟩
      · rw [hflag] at hac; cases hac
      · rw [hcrit] at hh; exact absurd hh (by decide)
  · intro s hsome hhigh hflag
    subst hsome
    rcases sendSpikeAlert_cases db fetch opts now with ⟨hout, -⟩ |
      ⟨s', p, hdb2, -, -, halert', -, -, -, -, -, -, -, -, -⟩
    · rcases routeSpikeAlertPost_cases (some s) req fetch now with ⟨hout2, -⟩ |
        ⟨s2, p2, hstg2, -, -, -, hn2, -, -, -, -, -, -, -, -, -, -⟩
      · exact ⟨by simp [hout], by simp [hout], hout2⟩
      · injection hstg2 with h
        subst h
        exact absurd ⟨hsev2.trans hhigh, hflag⟩ hn2
    · rw [hdb] at hdb2
      injection hdb2 with h
      subst h
      rcases halert' with ⟨hc, -⟩ | ⟨-, hah⟩
      · rw [hhigh] at hc; exact absurd hc (by decide)
      · rw [hflag] at hah; cases hah
  · intro hml
    rcases sendSpikeAlert_cases db fetch opts now with ⟨hout, -⟩ |
      ⟨s', p, hdb2, -, -, halert', -, -, -, -, -, -, -, -, -⟩
    · rcases routeSpikeAlertPost_cases stg req fetch now with ⟨hout2, -⟩ |
        ⟨s2, p2, hstg2, -, -, -, -, hm2, hl2, -, -, -, -, -, -, -, -⟩
      · exact ⟨by simp [hout], by simp [hout], hout2⟩
      · rcases hml with hm | hl
        · exact absurd (hsev2.trans hm) hm2
        · exact absurd (hsev2.trans hl) hl2
    · rcases hml with hm | hl
      · rcases halert' with ⟨hc, -⟩ | ⟨hh, -⟩
        · rw [hm] at hc; exact absurd hc (by decide)
        · rw [hm] at hh; exact absurd hh (by decide)
      · rcases halert' with ⟨hc, -⟩ | ⟨hh, -⟩
        · rw [hl] at hc; exact absurd hc (by decide)
        · rw [hl] at hh; exact absurd hh (by decide)
  · intro s hsome hen htr halert
    subst hsome
    constructor
    · rcases sendSpikeAlert_cases db fetch opts now with ⟨-, hforall⟩ |
        ⟨s', p, -, -, -, -, hd, -, -, -, -, -, -, -, -⟩
      · exact absurd halert (hforall s hdb hen htr)
      · rw [hd]; simp
    · rcases routeSpikeAlertPost_cases (some s) req fetch now with ⟨-, hforall⟩ |
        ⟨s2, p2, -, -, -, -, -, -, -, hd, -, -, -, -, -, -, -⟩
      · have hgate := hforall s rfl hen htr
        rcases halert with ⟨hc, hac⟩ | ⟨hh, hah⟩
        · rcases hgate with ⟨-, hacf⟩ | ⟨hh2, -⟩ | hm2 | hl2
          · rw [hac] at hacf; cases hacf
          · rw [hsev2, hc] at hh2; exact absurd hh2 (by decide)
          · rw [hsev2, hc] at hm2; exact absurd hm2 (by decide)
          · rw [hsev2, hc] at hl2; exact absurd hl2 (by decide)
        · rcases hgate with ⟨hc2, -⟩ | ⟨-, hahf⟩ | hm2 | hl2
          · rw [hsev2, hh] at hc2; exact absurd hc2 (by decide)
          · rw [hah] at hahf; cases hahf
          · rw [hsev2, hh] at hm2; exact absurd hm2 (by decide)
          · rw [hsev2, hh] at hl2; exact absurd hl2 (by decide)
      · rw [hd]; simp
  · intro s hsome hen htr hnc hnh hnm hnl
    subst hsome
    rcases sendSpikeAlert_cases db fetch opts now with ⟨hout, -⟩ |
      ⟨s', p, hdb2, -, -, halert', -, -, -, -, -, -, -, -, -⟩
    · rcases routeSpikeAlertPost_cases (some s) req fetch now with ⟨-, hforall⟩ |
        ⟨s2, p2, -, -, -, -, -, -, -, hd, -, -, -, -, -, -, -⟩
      · have hgate := hforall s rfl hen htr
        rcases hgate with ⟨hc2, -⟩ | ⟨hh2, -⟩ | hm2 | hl2
        · rw [hsev2] at hc2; exact absurd hc2 hnc
        · rw [hsev2] at hh2; exact absurd hh2 hnh
        · rw [hsev2] at hm2; exact absurd hm2 hnm
        · rw [hsev2] at hl2; exact absurd hl2 hnl
      · exact ⟨by simp [hout], by simp [hout], by rw [hd]; simp⟩
    · rcases halert' with ⟨hc, -⟩ | ⟨hh, -⟩
      · exact absurd hc hnc
      · exact absurd hh hnh

/-- Witness for C1 (amended): with everything enabled and a CRITICAL
finding, both the library and the route decide to dispatch. -/
theorem alert_gate_decision_witness :
    (sendSpikeAlert (fun _ => some enabledAll) okFetch critOpts "TS").dispatched ≠ [] ∧
    (routeSpikeAlertPost (some enabledAll) critReq okFetch "TS").dispatched ≠ [] :=
  (alert_gate_decision (some enabledAll) (fun _ => some enabledAll) okFetch
      critOpts critReq "TS" rfl rfl).2.2.2.2.2.1
    enabledAll rfl rfl (by decide) (Or.inl ⟨by decide, rfl⟩)

/-- C1 counterexample: with the integration fully enabled, a severity that is
none of the four labels falls outside every skip condition enumerated by the
claim, yet the library's `sendSpikeAlert` skips it (returns false, nothing
dispatched) instead of dispatching. -/
theorem alert_gate_unknown_severity_counterexample :
    enabledAll.spikeEnabled = true ∧ truthyStr enabledAll.spikeWebhookUrl = true ∧
    enabledAll.spikeAlertOnCritical = true ∧ enabledAll.spikeAlertOnHigh = true ∧
    toUpperCase unknownOpts.finding.severity ≠ "CRITICAL" ∧
    toUpperCase unknownOpts.finding.severity ≠ "HIGH" ∧
    toUpperCase unknownOpts.finding.severity ≠ "MEDIUM" ∧
    toUpperCase unknownOpts.finding.severity ≠ "LOW" ∧
    (sendSpikeAlert (fun _ => some enabledAll) okFetch unknownOpts "TS").result = false ∧
    (sendSpikeAlert (fun _ => some enabledAll) okFetch unknownOpts "TS").dispatched = [] := by
  decide

/-- C9 (amended): for severities whose uppercase form is one of the four
recognized labels, the single-alert route dispatches if and only if the
library's `sendSpikeAlert` would, for the same settings and severity;
(unrecognized severities diverge: the route dispatches, the library skips). -/
theorem route_gate_refines_library_gate (stg : Option UserSettings)
    (db : String → Option UserSettings) (fetch : String → SpikePayload → FetchResult)
    (opts : AlertOptions) (req : AlertRequest) (now : String)
    (hdb : db opts.userId = stg)
    (hsevU : toUpperCase req.severity = toUpperCase opts.finding.severity)
    (hrec : toUpperCase req.severity = "CRITICAL" ∨ toUpperCase req.severity = "HIGH" ∨
      toUpperCase req.severity = "MEDIUM" ∨ toUpperCase req.severity = "LOW") :
    ((routeSpikeAlertPost stg req fetch now).dispatched ≠ [] ↔
      (sendSpikeAlert db fetch opts now).dispatched ≠ []) := by
  constructor
  · intro hroute
    rcases routeSpikeAlertPost_cases stg req fetch now with ⟨hout, -⟩ |
      ⟨s, p, hstg, hen, htr, hn1, hn2, hm, hl, -, -, -, -, -, -, -, -⟩
    · exact absurd hout hroute
    · subst hstg
      rcases hrec with hc | hh | hm2 | hl2
      · have hac : s.spikeAlertOnCritical = true := by
          cases hb : s.spikeAlertOnCritical
          · exact absurd ⟨hc, hb⟩ hn1
          · rfl
        rcases sendSpikeAlert_cases db fetch opts now with ⟨-, hforall⟩ |
          ⟨s', p', -, -, -, -, hd2, -, -, -, -, -, -, -, -⟩
        · exact absurd (Or.inl ⟨hsevU.symm.trans hc, hac⟩) (hforall s hdb hen htr)
        · rw [hd2]; simp
      · have hah : s.spikeAlertOnHigh = true := by
          cases hb : s.spikeAlertOnHigh
          · exact absurd ⟨hh, hb⟩ hn2
          · rfl
        rcases sendSpikeAlert_cases db fetch opts now with ⟨-, hforall⟩ |
          ⟨s', p', -, -, -, -, hd2, -, -, -, -, -, -, -, -⟩
        · exact absurd (Or.inr ⟨hsevU.symm.trans hh, hah⟩) (hforall s hdb hen htr)
        · rw [hd2]; simp
      · exact absurd hm2 hm
      · exact absurd hl2 hl
  · intro hlib
    rcases sendSpikeAlert_cases db fetch opts now with ⟨hout, -⟩ |
      ⟨s, p, hdb2, hen, htr, halert, -, -, -, -, -, -, -, -, -⟩
    · exact absurd (by simp [hout]) hlib
    · rw [hdb] at hdb2
      subst hdb2
      rcases routeSpikeAlertPost_cases (some s) req fetch now with ⟨-, hforall⟩ |
        ⟨s2, p2, -, -, -, -, -, -, -, hd2, -, -, -, -, -, -, -⟩
      · have hgate := hforall s rfl hen htr
        rcases halert with ⟨hc, hac⟩ | ⟨hh, hah⟩
        · rcases hgate with ⟨-, hacf⟩ | ⟨hh2, -⟩ | hm2 | hl2
          · rw [hac] at hacf; cases hacf
          · rw [hsevU, hc] at hh2; exact absurd hh2 (by decide)
          · rw [hsevU, hc] at hm2; exact absurd hm2 (by decide)
          · rw [hsevU, hc] at hl2; exact absurd hl2 (by decide)
        · rcases hgate with ⟨hc2, -⟩ | ⟨-, hahf⟩ | hm2 | hl2
          · rw [hsevU, hh] at hc2; exact absurd hc2 (by decide)
          · rw [hah] at hahf; cases hahf
          · rw [hsevU, hh] at hm2; exact absurd hm2 (by decide)
          · rw [hsevU, hh] at hl2; exact absurd hl2 (by decide)
      · rw [hd2]; simp

/-- Witness for C9 (amended) at a CRITICAL request under enabled settings. -/
theorem route_gate_refines_library_gate_witness :
    (routeSpikeAlertPost (some enabledAll) critReq okFetch "TS").dispatched ≠ [] ↔
      (sendSpikeAlert (fun _ => some enabledAll) okFetch critOpts "TS").dispatched ≠ [] :=
  route_gate_refines_library_gate (some enabledAll) (fun _ => some enabledAll)
    okFetch critOpts critReq "TS" rfl rfl (Or.inl (by decide))

/-- C9 counterexample: for the unrecognized severity "UNKNOWN" under enabled
settings, the route dispatches while the library does not, so the two gates
are not equivalent over all severity strings. -/
theorem route_library_gate_divergence :
    unknownReq.severity = unknownOpts.finding.severity ∧
    (routeSpikeAlertPost (some enabledAll) unknownReq okFetch "TS").dispatched ≠ [] ∧
    (sendSpikeAlert (fun _ => some enabledAll) okFetch unknownOpts "TS").dispatched = [] := by
  decide

end CloudGuard
